import Mathlib

/-!
Verification of the circular-domain celestial position analytics in
`nasa_horizons_verification.py`: zodiac mapping, signed angular deltas,
retrograde-motion classification, planetary clustering span, eclipse
conditions, and the analytic mean-longitude fallback model.

Angles are modelled as rationals (degrees); Python's float `%` operator on a
positive modulus is modelled by `pymod`, which always lands in `[0, m)`.
-/

namespace NasaVerification

/-- Decidable equality for `Except` results, so that concrete runs of the
embedded functions can be checked by evaluation. -/
instance exceptDecEq {ε α : Type} [DecidableEq ε] [DecidableEq α] :
    DecidableEq (Except ε α)
  | Except.error a, Except.error b =>
    if h : a = b then Decidable.isTrue (by rw [h])
    else Decidable.isFalse (fun he => h (Except.error.inj he))
  | Except.error _, Except.ok _ => Decidable.isFalse (fun he => Except.noConfusion he)
  | Except.ok _, Except.error _ => Decidable.isFalse (fun he => Except.noConfusion he)
  | Except.ok a, Except.ok b =>
    if h : a = b then Decidable.isTrue (by rw [h])
    else Decidable.isFalse (fun he => h (Except.ok.inj he))

/-- Python's `x % m` for a positive modulus `m`: `x - m * floor (x / m)`. -/
def pymod (x m : ℚ) : ℚ := x - m * (⌊x / m⌋ : ℚ)

/-- The twelve fixed zodiac names, in source order (`signs` list in
`ecliptic_longitude_to_zodiac`). -/
def zodiacSigns : List String :=
  ["Aries", "Taurus", "Gemini", "Cancer",
   "Leo", "Virgo", "Libra", "Scorpio",
   "Sagittarius", "Capricorn", "Aquarius", "Pisces"]

/-- Embedding of `ecliptic_longitude_to_zodiac`: normalize with `lon % 360`,
take `sign_idx = int(lon / 30)` (truncation equals floor on the non-negative
normalized value) and `degree_in_sign = lon % 30`.  The source formats the
pair into a string; we return the (sign, degree) data it is built from. -/
def ecliptic_longitude_to_zodiac (lon : ℚ) : String × ℚ :=
  let lonn := pymod lon 360
  (zodiacSigns.getD (⌊lonn / 30⌋).toNat "", pymod lonn 30)

/-- Embedding of the wraparound fold in `check_mars_retrograde`
(lines 143-148): `diff = lon - prev_lon`, folded by `±360` when it leaves
`[-180, 180]`. -/
def signedDelta (prev_lon lon : ℚ) : ℚ :=
  if lon - prev_lon > 180 then lon - prev_lon - 360
  else if lon - prev_lon < -180 then lon - prev_lon + 360
  else lon - prev_lon

/-- Motion direction labels used by `check_mars_retrograde`
("N/A", "Direct", "RETROGRADE", "Stationary"). -/
inductive MotionDir where
  | na : MotionDir
  | direct : MotionDir
  | retrograde : MotionDir
  | stationary : MotionDir
deriving DecidableEq, Repr

/-- Embedding of line 150 of the source: `"Direct" if diff > 0 else
"RETROGRADE" if diff < 0 else "Stationary"`, with `diff` the folded delta. -/
def stepDirection (prev_lon lon : ℚ) : MotionDir :=
  if signedDelta prev_lon lon > 0 then MotionDir.direct
  else if signedDelta prev_lon lon < 0 then MotionDir.retrograde
  else MotionDir.stationary

/-- The per-sample classification loop of `check_mars_retrograde`, abstracted
over the sequence of longitudes it observes: `prev` carries `prev_lon`
(`None` initially), the first observed sample gets "N/A". -/
def classifyFrom (prev : Option ℚ) : List ℚ → List MotionDir
  | [] => []
  | lon :: rest =>
    (match prev with
     | none => MotionDir.na
     | some p => stepDirection p lon) :: classifyFrom (some lon) rest

/-- Direction classification of a chronological longitude sequence, as the
loop of `check_mars_retrograde` performs it (`prev_lon = None` at entry). -/
def classify (lons : List ℚ) : List MotionDir := classifyFrom none lons

/-- One entry of the `positions` list built by `check_mars_retrograde`:
`{'date': ..., 'longitude': ..., 'zodiac': ..., 'direction': ...}`. -/
structure MarsSample where
  date : String
  longitude : ℚ
  zodiac : String × ℚ
  direction : MotionDir
deriving DecidableEq, Repr

/-- The body of the `for i in range(0, days, 3)` loop of
`check_mars_retrograde`, run `n` times: every iteration queries the provider
at `start_date` (the loop index is never used to advance the date). -/
def check_mars_retrograde_aux (start_date : String) (query : String → ℚ) :
    ℕ → Option ℚ → List MarsSample
  | 0, _ => []
  | n + 1, prev_lon =>
    let lon := query start_date
    let direction :=
      match prev_lon with
      | none => MotionDir.na
      | some p => stepDirection p lon
    { date := start_date, longitude := lon,
      zodiac := ecliptic_longitude_to_zodiac lon, direction := direction } ::
      check_mars_retrograde_aux start_date query n (some lon)

/-- Embedding of `check_mars_retrograde start_date days` over a deterministic
position source `query`: `range(0, days, 3)` has `(days + 2) / 3` iterations
(Nat division), and each iteration queries `start_date` itself. -/
def check_mars_retrograde (start_date : String) (days : ℕ)
    (query : String → ℚ) : List MarsSample :=
  check_mars_retrograde_aux start_date query ((days + 2) / 3) none

/-- Embedding of the longitude-separation computation of
`test_eclipse_conditions` (lines 287-289): `lon_diff = abs(moon - sun)`,
replaced by `360 - lon_diff` when above `180`. -/
def lonDiff (sun_lon moon_lon : ℚ) : ℚ :=
  if |moon_lon - sun_lon| > 180 then 360 - |moon_lon - sun_lon|
  else |moon_lon - sun_lon|

/-- Result record of `test_eclipse_conditions`. -/
structure EclipseCheck where
  lon_diff : ℚ
  moon_lat : ℚ
  is_new_moon : Bool
  near_ecliptic : Bool
  eclipse_possible : Bool
deriving DecidableEq, Repr

/-- Embedding of `test_eclipse_conditions`: the ecliptic latitudes are
`Option`s mirroring `float(eph['EclLat'][0]) if 'EclLat' in ... else 0` —
an absent latitude is silently replaced by `0`.  `is_new_moon` uses the
hard-coded threshold `15`, `near_ecliptic` the threshold `1.5`, and
`eclipse_possible = is_new_moon and near_ecliptic`. -/
def test_eclipse_conditions (sun_lon moon_lon : ℚ)
    (sun_lat_opt moon_lat_opt : Option ℚ) : EclipseCheck :=
  let _sun_lat := sun_lat_opt.getD 0
  let moon_lat := moon_lat_opt.getD 0
  let d := lonDiff sun_lon moon_lon
  { lon_diff := d, moon_lat := moon_lat,
    is_new_moon := decide (d < 15),
    near_ecliptic := decide (|moon_lat| < 3 / 2),
    eclipse_possible := decide (d < 15) && decide (|moon_lat| < 3 / 2) }

/-- Embedding of the span computation of `test_planetary_clustering`
(lines 247-263).  With two or more longitudes: `span = max - min`; if that
exceeds `180`, all longitudes are shifted by `(l + 180) % 360` and the span
is recomputed on the shifted values.  With exactly one longitude the final
`return span if longitudes else None` reads the never-assigned local `span`
and raises `UnboundLocalError`; with zero longitudes it returns `None`. -/
def test_planetary_clustering (longitudes : List ℚ) :
    Except String (Option ℚ) :=
  match longitudes with
  | a :: b :: rest =>
    let lons := a :: b :: rest
    let min_lon := rest.foldl min (min a b)
    let max_lon := rest.foldl max (max a b)
    let span0 := max_lon - min_lon
    let span :=
      if span0 > 180 then
        match lons.map (fun l => pymod (l + 180) 360) with
        | [] => span0
        | s :: ss => ss.foldl max s - ss.foldl min s
      else span0
    Except.ok (some span)
  | [_] => Except.error "UnboundLocalError"
  | [] => Except.ok none

/-- A covering arc on the circle of ecliptic longitudes. -/
structure Arc where
  start : ℚ
  length : ℚ
deriving DecidableEq, Repr

/-- Circular gap from `a` forward to `b` in degrees, in `[0, 360)`. -/
def circularGap (a b : ℚ) : ℚ := pymod (b - a) 360

/-- Modelled from the spec: the repository has no `minimalCoveringArc`
implementation (its clustering test uses a max-minus-min span with a 180°
shift heuristic instead); this follows §4.1 of the design — sort the
distinct normalized angles ascending, take the circular gaps between
consecutive pairs (wrapping the last to the first), return length
`360 - max gap` with start at the angle immediately after the largest gap;
zero angles are an error, a single angle gives a zero-length arc. -/
def minimalCoveringArc (angles : List ℚ) : Except String Arc :=
  match (angles.map (fun x => pymod x 360)).dedup.insertionSort (· ≤ ·) with
  | [] => Except.error "InsufficientData"
  | [a] => Except.ok { start := a, length := 0 }
  | a :: b :: rest =>
    let s := a :: b :: rest
    let pairs := s.zip (s.rotate 1)
    let best := pairs.foldl
      (fun acc p => if circularGap acc.1 acc.2 < circularGap p.1 p.2 then p else acc)
      (a, b)
    Except.ok { start := best.2, length := 360 - circularGap best.1 best.2 }

/-- The planetary mean-longitude table of
`calculate_approximate_positions_ancient` (lines 359-367):
body, reference longitude at J2000, motion per Julian century. -/
def planets_config : List (String × ℚ × ℚ) :=
  [("Sun", 28046646 / 100000, 3600076983 / 100000),
   ("Moon", 2183165 / 10000, 4812678813 / 10000),
   ("Mercury", 2522509 / 10000, 1494726746 / 10000),
   ("Venus", 1819798 / 10000, 585178157 / 10000),
   ("Mars", 3554330 / 10000, 191402993 / 10000),
   ("Jupiter", 343515 / 10000, 30349057 / 10000),
   ("Saturn", 500774 / 10000, 12221138 / 10000)]

/-- `T = (jd - 2451545.0) / 36525.0`: Julian centuries from J2000. -/
def julianCenturies (jd : ℚ) : ℚ := (jd - 2451545) / 36525

/-- Embedding of `calculate_approximate_positions_ancient`: the returned
`planets` mapping holds the raw mean longitudes `ref + rate * T`; the
source normalizes (`lon % 360`) only for printing, not in the returned
values. -/
def calculate_approximate_positions_ancient (jd : ℚ) : List (String × ℚ) :=
  let T := julianCenturies jd
  planets_config.map (fun p => (p.1, p.2.1 + p.2.2 * T))

/-! ### Basic facts about `pymod` -/

/-- For a positive modulus, `pymod` lands in `[0, m)`. -/
theorem pymod_bounds (x m : ℚ) (hm : 0 < m) : 0 ≤ pymod x m ∧ pymod x m < m := by
  unfold pymod
  have h1 : ((⌊x / m⌋ : ℚ)) ≤ x / m := Int.floor_le _
  have h2 : x / m < (⌊x / m⌋ : ℚ) + 1 := Int.lt_floor_add_one _
  have e1 : (⌊x / m⌋ : ℚ) * m ≤ x := (le_div_iff₀ hm).mp h1
  have e2 : x < ((⌊x / m⌋ : ℚ) + 1) * m := (div_lt_iff₀ hm).mp h2
  constructor <;> nlinarith

/-- Reducing modulo 360 and then modulo 30 is reducing modulo 30. -/
theorem pymod_360_30 (x : ℚ) : pymod (pymod x 360) 30 = pymod x 30 := by
  unfold pymod
  have h : (x - 360 * (⌊x / 360⌋ : ℚ)) / 30 = x / 30 - ((12 * ⌊x / 360⌋ : ℤ) : ℚ) := by
    push_cast
    ring
  rw [h, Int.floor_sub_int]
  push_cast
  ring

/-- A `getD` lookup at an in-range index returns an element of the list. -/
theorem getD_mem {l : List String} {i : ℕ} (h : i < l.length) (d : String) :
    l.getD i d ∈ l := by
  rw [List.getD_eq_getElem l d h]
  exact List.getElem_mem h

/-- The step classification mirrors the sign of the folded delta. -/
theorem stepDirection_spec (p c : ℚ) :
    (stepDirection p c = MotionDir.stationary ↔ signedDelta p c = 0) ∧
    (stepDirection p c = MotionDir.direct ↔ 0 < signedDelta p c) ∧
    (stepDirection p c = MotionDir.retrograde ↔ signedDelta p c < 0) := by
  unfold stepDirection
  rcases lt_trichotomy (signedDelta p c) 0 with h | h | h
  · rw [if_neg (by linarith), if_pos h]
    exact ⟨⟨(fun hh => by cases hh), (fun hh => by linarith)⟩,
           ⟨(fun hh => by cases hh), (fun hh => by linarith)⟩,
           ⟨(fun _ => h), (fun _ => rfl)⟩⟩
  · rw [if_neg (by linarith), if_neg (by linarith)]
    exact ⟨⟨(fun _ => h), (fun _ => rfl)⟩,
           ⟨(fun hh => by cases hh), (fun hh => by linarith)⟩,
           ⟨(fun hh => by cases hh), (fun hh => by linarith)⟩⟩
  · rw [if_pos h]
    exact ⟨⟨(fun hh => by cases hh), (fun hh => by linarith)⟩,
           ⟨(fun _ => h), (fun _ => rfl)⟩,
           ⟨(fun hh => by cases hh), (fun hh => by linarith)⟩⟩

/-- Each classified direction after the first comes from the folded delta of
the two adjacent longitudes, whatever the initial `prev_lon` is. -/
theorem classifyFrom_step :
    ∀ (lons : List ℚ) (prev : Option ℚ) (i : ℕ) (a b : ℚ),
      lons[i]? = some a → lons[i + 1]? = some b →
      (classifyFrom prev lons)[i + 1]? = some (stepDirection a b) := by
  intro lons
  induction lons with
  | nil =>
    intro prev i a b h1 _
    simp at h1
  | cons lon rest ih =>
    intro prev i a b h1 h2
    cases i with
    | zero =>
      rw [List.getElem?_cons_zero, Option.some.injEq] at h1
      subst h1
      rw [List.getElem?_cons_succ] at h2
      cases rest with
      | nil => simp at h2
      | cons b2 rest2 =>
        rw [List.getElem?_cons_zero, Option.some.injEq] at h2
        subst h2
        simp [classifyFrom]
    | succ i =>
      rw [List.getElem?_cons_succ] at h1 h2
      have hr := ih (some lon) i a b h1 h2
      simpa [classifyFrom] using hr

/-- When the loop keeps seeing the very longitude it last recorded, every
further sample is Stationary. -/
theorem check_mars_aux_stationary (d : String) (q : String → ℚ) :
    ∀ n : ℕ, check_mars_retrograde_aux d q n (some (q d)) =
      List.replicate n
        ⟨d, q d, ecliptic_longitude_to_zodiac (q d), MotionDir.stationary⟩ := by
  have h0 : signedDelta (q d) (q d) = 0 := by
    unfold signedDelta
    rw [sub_self]
    norm_num
  have hs : stepDirection (q d) (q d) = MotionDir.stationary := by
    unfold stepDirection
    rw [h0]
    norm_num
  intro n
  induction n with
  | zero => rfl
  | succ n ih =>
    rw [List.replicate_succ]
    simp only [check_mars_retrograde_aux]
    rw [hs, ih]

/-! ### Claim theorems -/

/-- Claim C1: the clustering analysis does not compute the minimal covering
arc.  On `[10, 350, 5]` the shift heuristic happens to produce the minimal
length `20`, but it returns a bare span with no start angle; on
`[0, 170, 190]` it produces `340` where the minimal covering arc (per the
design algorithm: sort, circular gaps, `360 - max gap`) has length `190`
with start `170`. -/
theorem clustering_span_is_not_minimal_arc :
    test_planetary_clustering [10, 350, 5] = Except.ok (some 20) ∧
    minimalCoveringArc [10, 350, 5] = Except.ok ⟨350, 20⟩ ∧
    test_planetary_clustering [0, 170, 190] = Except.ok (some 340) ∧
    minimalCoveringArc [0, 170, 190] = Except.ok ⟨170, 190⟩ ∧
    (340 : ℚ) ≠ (190 : ℚ) := by
  refine ⟨?_, ?_, ?_, ?_, by norm_num⟩ <;>
    norm_num [test_planetary_clustering, minimalCoveringArc, pymod, circularGap,
      List.insertionSort, List.orderedInsert, List.dedup, List.rotate,
      List.zip, List.zipWith]

/-- Claim C2: when the Moon latitude is unavailable the eclipse check
substitutes `0` for it, so `near_ecliptic` comes out `true` and, in
conjunction, `eclipse_possible` comes out `true` — not the absent /
`false` results the design demands. -/
theorem eclipse_missing_latitude_becomes_zero :
    (test_eclipse_conditions 10 12 none none).moon_lat = 0 ∧
    (test_eclipse_conditions 10 12 none none).near_ecliptic = true ∧
    (test_eclipse_conditions 10 12 none none).is_new_moon = true ∧
    (test_eclipse_conditions 10 12 none none).eclipse_possible = true := by
  refine ⟨rfl, ?_, ?_, ?_⟩ <;> norm_num [test_eclipse_conditions, lonDiff]

/-- Claim C3: the clustering span is not rotation invariant.  Rotating
`[0, 170, 190]` by `90` degrees changes the computed span from `340` to
`190`, while the minimal covering arc (design algorithm) keeps length `190`
and moves its start from `170` to `260 = 170 + 90`. -/
theorem clustering_span_not_rotation_invariant :
    test_planetary_clustering [0, 170, 190] = Except.ok (some 340) ∧
    test_planetary_clustering [90, 260, 280] = Except.ok (some 190) ∧
    minimalCoveringArc [0, 170, 190] = Except.ok ⟨170, 190⟩ ∧
    minimalCoveringArc [90, 260, 280] = Except.ok ⟨260, 190⟩ ∧
    (340 : ℚ) ≠ (190 : ℚ) := by
  refine ⟨?_, ?_, ?_, ?_, by norm_num⟩ <;>
    norm_num [test_planetary_clustering, minimalCoveringArc, pymod, circularGap,
      List.insertionSort, List.orderedInsert, List.dedup, List.rotate,
      List.zip, List.zipWith]

/-- Claim C8: on a single longitude the clustering computation fails with an
`UnboundLocalError` (the `span` local is only assigned when there are at
least two longitudes, yet `return span if longitudes else None` reads it),
instead of returning a zero-length arc; on zero longitudes it returns `None`
(a value) instead of failing.  The design algorithm handles both degenerate
cases as specified. -/
theorem clustering_degenerate_inputs :
    test_planetary_clustering [42] = Except.error "UnboundLocalError" ∧
    test_planetary_clustering [] = Except.ok none ∧
    minimalCoveringArc [42] = Except.ok ⟨42, 0⟩ ∧
    minimalCoveringArc [] = Except.error "InsufficientData" := by
  refine ⟨rfl, rfl, ?_, rfl⟩
  norm_num [minimalCoveringArc, pymod, List.insertionSort, List.orderedInsert, List.dedup]

/-- Claim C4 counterexample: the folded delta is not confined to the
half-open interval `(-180, 180]` and the antipodal boundary is not uniformly
`+180`: `signedDelta 180 0 = -180` while `signedDelta 0 180 = 180`. -/
theorem signedDelta_escapes_open_interval :
    signedDelta 180 0 = -180 ∧ ¬ (-180 < signedDelta 180 0) ∧
    signedDelta 0 180 = 180 := by
  norm_num [signedDelta]

/-- Claim C4 (amended): for normalized inputs the folded delta lies in the
closed interval `[-180, 180]`, so `|signedDelta| ≤ 180`; the antipodal
boundary keeps the sign of the raw difference — `+180` when `b - a = 180`
and `-180` when `b - a = -180`. -/
theorem signedDelta_range (a b : ℚ) (h0 : 0 ≤ a) (h1 : a < 360)
    (h2 : 0 ≤ b) (h3 : b < 360) :
    -180 ≤ signedDelta a b ∧ signedDelta a b ≤ 180 ∧ |signedDelta a b| ≤ 180 ∧
    (b - a = 180 → signedDelta a b = 180) ∧
    (b - a = -180 → signedDelta a b = -180) := by
  unfold signedDelta
  split_ifs with hgt hlt
  · exact ⟨by linarith, by linarith, abs_le.mpr ⟨by linarith, by linarith⟩,
      (fun h => by linarith), (fun h => by linarith)⟩
  · exact ⟨by linarith, by linarith, abs_le.mpr ⟨by linarith, by linarith⟩,
      (fun h => by linarith), (fun h => by linarith)⟩
  · exact ⟨by linarith, by linarith, abs_le.mpr ⟨by linarith, by linarith⟩,
      (fun h => h), (fun h => h)⟩

/-- Witness for the amended C4 statement at the concrete antipodal pair
`(0, 180)`. -/
theorem signedDelta_range_witness :
    (0 : ℚ) ≤ 0 ∧ (0 : ℚ) < 360 ∧ (0 : ℚ) ≤ 180 ∧ (180 : ℚ) < 360 ∧
    signedDelta 0 180 = 180 :=
  ⟨le_refl 0, by norm_num, by norm_num, by norm_num,
   (signedDelta_range 0 180 (le_refl 0) (by norm_num) (by norm_num)
     (by norm_num)).2.2.2.1 (by norm_num)⟩

/-- Claim C5 counterexample: the analytic model returns raw mean longitudes;
at `jd = 2488070` (one Julian century after J2000) the Sun entry is
`36281.23629`, far outside `[0, 360)`.  Normalization happens only in the
printing path. -/
theorem analytic_sun_longitude_not_in_range :
    ("Sun", (3628123629 / 100000 : ℚ)) ∈
      calculate_approximate_positions_ancient 2488070 ∧
    ¬ ((3628123629 / 100000 : ℚ) < 360) := by
  constructor
  · norm_num [calculate_approximate_positions_ancient, planets_config, julianCenturies]
  · norm_num

/-- Claim C5 (amended): every longitude the analytic model hands back is the
raw `referenceLongitude + meanMotionPerJulianCentury * T` for its body, with
`T` in Julian centuries; only its normalization `lon % 360` (computed for
display) lies in `[0, 360)`. -/
theorem analytic_positions_formula (jd : ℚ) (nm : String) (lon : ℚ)
    (h : (nm, lon) ∈ calculate_approximate_positions_ancient jd) :
    (∃ ref rate, (nm, ref, rate) ∈ planets_config ∧
      lon = ref + rate * julianCenturies jd) ∧
    0 ≤ pymod lon 360 ∧ pymod lon 360 < 360 := by
  refine ⟨?_, (pymod_bounds lon 360 (by norm_num)).1,
    (pymod_bounds lon 360 (by norm_num)).2⟩
  unfold calculate_approximate_positions_ancient at h
  rw [List.mem_map] at h
  obtain ⟨p, hp, he⟩ := h
  simp only [Prod.mk.injEq] at he
  obtain ⟨e1, e2⟩ := he
  subst e1
  subst e2
  exact ⟨p.2.1, p.2.2, hp, rfl⟩

/-- Witness for the amended C5 statement at `jd = 2451545` (J2000), where
the Sun entry is exactly its reference longitude. -/
theorem analytic_positions_formula_witness :
    ("Sun", (28046646 / 100000 : ℚ)) ∈
      calculate_approximate_positions_ancient 2451545 ∧
    ((∃ ref rate, ("Sun", ref, rate) ∈ planets_config ∧
        (28046646 / 100000 : ℚ) = ref + rate * julianCenturies 2451545) ∧
      0 ≤ pymod (28046646 / 100000 : ℚ) 360 ∧
      pymod (28046646 / 100000 : ℚ) 360 < 360) :=
  ⟨by norm_num [calculate_approximate_positions_ancient, planets_config, julianCenturies],
   analytic_positions_formula 2451545 "Sun" (28046646 / 100000)
     (by norm_num [calculate_approximate_positions_ancient, planets_config,
       julianCenturies])⟩

/-- Claim C6: the first sample is classified Unknown ("N/A"); every later
sample is classified from the folded delta of the adjacent longitudes —
Stationary at zero, Direct when positive, Retrograde when negative; and the
sequence `[100, 102, 101, 99]` classifies to
`[Unknown, Direct, Retrograde, Retrograde]`. -/
theorem motion_classification_spec :
    (∀ (a : ℚ) (rest : List ℚ), (classify (a :: rest))[0]? = some MotionDir.na) ∧
    (∀ (lons : List ℚ) (i : ℕ) (a b : ℚ), lons[i]? = some a →
      lons[i + 1]? = some b →
      (classify lons)[i + 1]? = some (stepDirection a b)) ∧
    (∀ p c : ℚ,
      (stepDirection p c = MotionDir.stationary ↔ signedDelta p c = 0) ∧
      (stepDirection p c = MotionDir.direct ↔ 0 < signedDelta p c) ∧
      (stepDirection p c = MotionDir.retrograde ↔ signedDelta p c < 0)) ∧
    classify [100, 102, 101, 99] =
      [MotionDir.na, MotionDir.direct, MotionDir.retrograde, MotionDir.retrograde] :=
  ⟨(fun a rest => by simp [classify, classifyFrom]),
   (fun lons i a b h1 h2 => classifyFrom_step lons none i a b h1 h2),
   stepDirection_spec,
   by norm_num [classify, classifyFrom, stepDirection, signedDelta]⟩

/-- Witness for C6 at the concrete adjacent pair `(100, 102)` inside
`[100, 102]`. -/
theorem motion_classification_spec_witness :
    (([100, 102] : List ℚ)[0]? = some 100) ∧
    (([100, 102] : List ℚ)[1]? = some 102) ∧
    (classify [100, 102])[1]? = some (stepDirection 100 102) :=
  ⟨rfl, rfl,
   motion_classification_spec.2.1 [100, 102] 0 100 102 rfl rfl⟩

/-- Claim C7: for normalized longitudes the separation computed by the
eclipse check equals `|signedDelta a b|`, lies in `[0, 180]`, and the
new-moon flag holds exactly when the separation is strictly below the
hard-coded threshold `15`. -/
theorem conjunction_separation_spec (a b : ℚ) (h0 : 0 ≤ a) (h1 : a < 360)
    (h2 : 0 ≤ b) (h3 : b < 360) :
    lonDiff a b = |signedDelta a b| ∧ 0 ≤ lonDiff a b ∧ lonDiff a b ≤ 180 ∧
    ((test_eclipse_conditions a b none none).is_new_moon = true ↔
      lonDiff a b < 15) := by
  have key : lonDiff a b = |signedDelta a b| ∧ 0 ≤ lonDiff a b ∧ lonDiff a b ≤ 180 := by
    rcases lt_or_le 180 (b - a) with hP | hP1
    · have e1 : |b - a| = b - a := abs_of_pos (by linarith)
      have e2 : signedDelta a b = b - a - 360 := by
        unfold signedDelta
        rw [if_pos hP]
      have e3 : lonDiff a b = 360 - (b - a) := by
        unfold lonDiff
        rw [e1, if_pos hP]
      have e4 : |signedDelta a b| = 360 - (b - a) := by
        rw [e2, abs_of_neg (by linarith)]
        ring
      exact ⟨by rw [e3, e4], by rw [e3]; linarith, by rw [e3]; linarith⟩
    · rcases lt_or_le (b - a) (-180) with hN | hN1
      · have e1 : |b - a| = -(b - a) := abs_of_neg (by linarith)
        have e2 : signedDelta a b = b - a + 360 := by
          unfold signedDelta
          rw [if_neg (by linarith), if_pos hN]
        have e3 : lonDiff a b = 360 - -(b - a) := by
          unfold lonDiff
          rw [e1, if_pos (by linarith)]
        have e4 : |signedDelta a b| = b - a + 360 := by
          rw [e2, abs_of_pos (by linarith)]
        exact ⟨by rw [e3, e4]; ring, by rw [e3]; linarith, by rw [e3]; linarith⟩
      · have e2 : signedDelta a b = b - a := by
          unfold signedDelta
          rw [if_neg (by linarith), if_neg (by linarith)]
        have habs : |b - a| ≤ 180 := abs_le.mpr ⟨by linarith, by linarith⟩
        have e3 : lonDiff a b = |b - a| := by
          unfold lonDiff
          rw [if_neg (not_lt.mpr habs)]
        exact ⟨by rw [e3, e2], by rw [e3]; exact abs_nonneg _, by rw [e3]; exact habs⟩
  have hbool : (test_eclipse_conditions a b none none).is_new_moon =
      decide (lonDiff a b < 15) := rfl
  refine ⟨key.1, key.2.1, key.2.2, ?_⟩
  rw [hbool]
  exact decide_eq_true_iff

/-- Witness for C7 at the wraparound pair `(10, 358)`: separation `12`,
conjunction flag true at threshold `15`. -/
theorem conjunction_separation_spec_witness :
    (0 : ℚ) ≤ 10 ∧ (10 : ℚ) < 360 ∧ (0 : ℚ) ≤ 358 ∧ (358 : ℚ) < 360 ∧
    lonDiff 10 358 = |signedDelta 10 358| ∧
    lonDiff 10 358 = 12 ∧
    (test_eclipse_conditions 10 358 none none).is_new_moon = true :=
  ⟨by norm_num, by norm_num, by norm_num, by norm_num,
   (conjunction_separation_spec 10 358 (by norm_num) (by norm_num)
     (by norm_num) (by norm_num)).1,
   by norm_num [lonDiff],
   by norm_num [test_eclipse_conditions, lonDiff]⟩

/-- Claim C9: the zodiac mapping is total — for every rational longitude it
returns one of the twelve fixed sign names (the one at index
`floor((lon mod 360) / 30)`) together with `degreeInSign = lon mod 30`,
which lies in `[0, 30)`; `47.5` maps to Taurus `17.5`. -/
theorem zodiac_mapping_spec :
    (∀ lon : ℚ,
      (ecliptic_longitude_to_zodiac lon).1 ∈ zodiacSigns ∧
      (ecliptic_longitude_to_zodiac lon).2 = pymod lon 30 ∧
      0 ≤ (ecliptic_longitude_to_zodiac lon).2 ∧
      (ecliptic_longitude_to_zodiac lon).2 < 30) ∧
    ecliptic_longitude_to_zodiac (95 / 2) = ("Taurus", 35 / 2) ∧
    zodiacSigns.length = 12 ∧ zodiacSigns.getD 1 "" = "Taurus" := by
  refine ⟨fun lon => ?_, ?_, rfl, rfl⟩
  · have hb := pymod_bounds lon 360 (by norm_num)
    have hq : pymod lon 360 / 30 < (12 : ℚ) := by
      rw [div_lt_iff₀ (by norm_num : (0 : ℚ) < 30)]
      linarith [hb.2]
    have hlt : ⌊pymod lon 360 / 30⌋ < 12 := Int.floor_lt.mpr (by exact_mod_cast hq)
    have hidx : (⌊pymod lon 360 / 30⌋).toNat < zodiacSigns.length := by
      have hlen : zodiacSigns.length = 12 := rfl
      omega
    have hz2 : (ecliptic_longitude_to_zodiac lon).2 = pymod lon 30 :=
      pymod_360_30 lon
    refine ⟨getD_mem hidx "", hz2, ?_, ?_⟩
    · rw [hz2]
      exact (pymod_bounds lon 30 (by norm_num)).1
    · rw [hz2]
      exact (pymod_bounds lon 30 (by norm_num)).2
  · norm_num [ecliptic_longitude_to_zodiac, pymod, zodiacSigns]

/-- Claim C10: the Mars retrograde loop never advances the queried date, so
over any deterministic position source every recorded sample carries
`start_date` and the same longitude, every direction after the first is
Stationary, and no sample is ever labelled RETROGRADE. -/
theorem mars_retrograde_check_is_constant (d : String) (days : ℕ)
    (q : String → ℚ) :
    (∀ s ∈ check_mars_retrograde d days q, s.date = d ∧ s.longitude = q d) ∧
    (∀ (i : ℕ) (s : MarsSample),
      (check_mars_retrograde d days q)[i + 1]? = some s →
      s.direction = MotionDir.stationary) ∧
    (∀ s ∈ check_mars_retrograde d days q,
      s.direction ≠ MotionDir.retrograde) := by
  unfold check_mars_retrograde
  cases hn : (days + 2) / 3 with
  | zero =>
    refine ⟨?_, ?_, ?_⟩
    · intro s hs
      simp [check_mars_retrograde_aux] at hs
    · intro i s hs
      simp [check_mars_retrograde_aux] at hs
    · intro s hs
      simp [check_mars_retrograde_aux] at hs
  | succ n =>
    simp only [check_mars_retrograde_aux]
    rw [check_mars_aux_stationary d q n]
    refine ⟨?_, ?_, ?_⟩
    · intro s hs
      rcases List.mem_cons.mp hs with h | h
      · rw [h]
        exact ⟨rfl, rfl⟩
      · rw [List.eq_of_mem_replicate h]
        exact ⟨rfl, rfl⟩
    · intro i s hs
      rw [List.getElem?_cons_succ, List.getElem?_replicate] at hs
      split at hs
      · rw [Option.some.injEq] at hs
        rw [← hs]
      · exact Option.noConfusion hs
    · intro s hs
      rcases List.mem_cons.mp hs with h | h
      · rw [h]
        intro hc
        exact MotionDir.noConfusion hc
      · rw [List.eq_of_mem_replicate h]
        intro hc
        exact MotionDir.noConfusion hc

/-- Witness for C10: a concrete run of three iterations over the constant
source `123` contains a Stationary sample, never a RETROGRADE one. -/
theorem mars_retrograde_check_is_constant_witness :
    ((⟨"A", 123, ecliptic_longitude_to_zodiac 123, MotionDir.stationary⟩ :
        MarsSample) ∈ check_mars_retrograde "A" 7 (fun _ => 123)) ∧
    (⟨"A", 123, ecliptic_longitude_to_zodiac 123, MotionDir.stationary⟩ :
        MarsSample).direction ≠ MotionDir.retrograde := by
  have hm : (⟨"A", 123, ecliptic_longitude_to_zodiac 123, MotionDir.stationary⟩ :
      MarsSample) ∈ check_mars_retrograde "A" 7 (fun _ => 123) := by
    norm_num [check_mars_retrograde, check_mars_retrograde_aux, stepDirection,
      signedDelta]
  exact ⟨hm, (mars_retrograde_check_is_constant "A" 7 (fun _ => 123)).2.2 _ hm⟩

end NasaVerification
